import Mathlib

/-!
Verification of the `tap-universal-file` file-ingestion tap.

The entry point `tap_file/tap.py` declares the configuration schema
(`TapFile.config_jsonschema`) and the stream-discovery logic
(`TapFile.discover_streams`).  Both are embedded below.  The format/stream
module `tap_file/streams.py` (compression resolution, delimiter resolution,
JSONL schema inference, the pipeline) is not among the sources; the parts of
it that claims need are modelled from the spec and marked as such.
-/

/-- A default value of a configuration property: absent, a string literal,
a boolean literal, or the value of an environment variable read at class
definition time (`os.getenv(...)` in the source). -/
inductive PropDefault where
  | none
  | str (s : String)
  | bool (b : Bool)
  | envVar (v : String)
deriving DecidableEq, Repr

/-- One `th.Property(...)` declaration of `TapFile.config_jsonschema`:
its name, whether it is required, its default, and its `allowed_values`
constraint when one is declared. -/
structure ConfigProperty where
  name : String
  required : Bool
  default : PropDefault
  allowed_values : Option (List String)
deriving DecidableEq, Repr

/-- The configuration schema of `TapFile` (`tap.py`, `config_jsonschema`),
one entry per `th.Property` in declaration order. -/
def config_jsonschema : List ConfigProperty :=
  [ ⟨"stream_name", false, .str "file", Option.none⟩,
    ⟨"protocol", true, .none, some ["file", "s3"]⟩,
    ⟨"filepath", true, .none, Option.none⟩,
    ⟨"file_regex", false, .none, Option.none⟩,
    ⟨"file_type", false, .str "delimited", Option.none⟩,
    ⟨"compression", false, .str "detect",
      some ["none", "zip", "bz2", "gzip", "lzma", "xz", "detect"]⟩,
    ⟨"delimiter", false, .str "detect", Option.none⟩,
    ⟨"quote_character", false, .str "\"", Option.none⟩,
    ⟨"jsonl_sampling_strategy", false, .str "first", some ["first", "all"]⟩,
    ⟨"jsonl_type_coercion_strategy", false, .str "any",
      some ["any", "string", "blob"]⟩,
    ⟨"s3_anonymous_connection", false, .bool false, Option.none⟩,
    ⟨"AWS_ACCESS_KEY_ID", false, .envVar "AWS_ACCESS_KEY_ID", Option.none⟩,
    ⟨"AWS_SECRET_ACCESS_KEY", false, .envVar "AWS_SECRET_ACCESS_KEY", Option.none⟩,
    ⟨"caching_strategy", false, .str "once", some ["none", "once", "persistent"]⟩ ]

/-- Look up a property of the configuration schema by name. -/
def getProperty (n : String) : Option ConfigProperty :=
  config_jsonschema.find? (fun p => p.name == n)

/-- A stream object returned by `discover_streams`: either a
`streams.DelimitedStream` or a `streams.JSONLStream`, carrying the `name=`
argument it was constructed with. -/
inductive FileStream where
  | DelimitedStream (name : String)
  | JSONLStream (name : String)
deriving DecidableEq, Repr

/-- The name a discovered stream was constructed with. -/
def FileStream.streamName : FileStream → String
  | .DelimitedStream n => n
  | .JSONLStream n => n

/-- A Python exception raised by `discover_streams`. -/
inductive TapError where
  | valueError (msg : String)
  | notImplementedError (msg : String)
deriving DecidableEq, Repr

/-- `TapFile.discover_streams` (`tap.py`): reads `stream_name` and
`file_type` from the configuration, returns a one-element stream list for
`delimited`/`jsonl`, raises `NotImplementedError` for `avro`, and raises
`ValueError` otherwise, with a message suggesting `delimited` when the
value is `csv` or `tsv`. -/
def discover_streams (stream_name file_type : String) :
    Except TapError (List FileStream) :=
  if file_type = "delimited" then .ok [.DelimitedStream stream_name]
  else if file_type = "jsonl" then .ok [.JSONLStream stream_name]
  else if file_type = "avro" then
    .error (.notImplementedError "avro has not yet been implemented.")
  else if file_type = "csv" ∨ file_type = "tsv" then
    .error (.valueError
      (file_type ++ " is not a valid \x27file_type\x27. Did you mean \x27delimited\x27?"))
  else .error (.valueError (file_type ++ " is not a valid \x27file_type\x27."))

/-- C1: with `file_type="csv"`, `discover_streams` raises a `ValueError`
(returning no streams) whose message tells the caller the correct value is
`delimited`. -/
theorem discover_streams_csv_value_error (stream_name : String) :
    discover_streams stream_name "csv" =
      .error (.valueError
        "csv is not a valid \x27file_type\x27. Did you mean \x27delimited\x27?") ∧
    ∃ msg, discover_streams stream_name "csv" = .error (.valueError msg) ∧
      List.IsInfix "delimited".data msg.data :=
  ⟨rfl, _, rfl, by decide⟩

/-- C2: with `file_type="avro"`, `discover_streams` raises a
`NotImplementedError` before touching any file (the error depends on the
configuration alone) and never returns a stream. -/
theorem discover_streams_avro_not_implemented (stream_name : String) :
    discover_streams stream_name "avro" =
      .error (.notImplementedError "avro has not yet been implemented.") :=
  rfl

/-- C3: for every configuration, `file_type="delimited"` yields exactly one
`DelimitedStream` and `file_type="jsonl"` yields exactly one `JSONLStream`,
in both cases named by the configured `stream_name`. -/
theorem discover_streams_delimited_jsonl (stream_name : String) :
    discover_streams stream_name "delimited" =
      .ok [.DelimitedStream stream_name] ∧
    discover_streams stream_name "jsonl" = .ok [.JSONLStream stream_name] ∧
    (FileStream.DelimitedStream stream_name).streamName = stream_name ∧
    (FileStream.JSONLStream stream_name).streamName = stream_name :=
  ⟨rfl, rfl, rfl, rfl⟩

/-- C9: every `file_type` outside `delimited`/`jsonl`/`avro` makes
`discover_streams` raise a `ValueError` and return no streams; `tsv` (like
`csv`) gets a message suggesting `delimited`, any other unknown value gets
the plain invalid-value message; and the configuration schema itself places
no `allowed_values` constraint on `file_type`, so the failure happens only
at discovery. -/
theorem discover_streams_invalid_file_type (stream_name file_type : String)
    (hd : file_type ≠ "delimited") (hj : file_type ≠ "jsonl")
    (ha : file_type ≠ "avro") :
    (∃ msg, discover_streams stream_name file_type = .error (.valueError msg)) ∧
    (file_type = "tsv" →
      discover_streams stream_name file_type =
        .error (.valueError
          "tsv is not a valid \x27file_type\x27. Did you mean \x27delimited\x27?")) ∧
    (file_type ≠ "csv" → file_type ≠ "tsv" →
      discover_streams stream_name file_type =
        .error (.valueError (file_type ++ " is not a valid \x27file_type\x27."))) ∧
    (∃ p, getProperty "file_type" = some p ∧ p.allowed_values = Option.none) := by
  unfold discover_streams
  rw [if_neg hd, if_neg hj, if_neg ha]
  refine ⟨?_, ?_, ?_, ⟨_, rfl, rfl⟩⟩
  · by_cases hct : file_type = "csv" ∨ file_type = "tsv"
    · exact ⟨_, by rw [if_pos hct]⟩
    · exact ⟨_, by rw [if_neg hct]⟩
  · intro ht
    subst ht
    rfl
  · intro hc ht
    rw [if_neg (by simp [hc, ht])]

/-- C9 witness: the unknown value `xml` at a concrete configuration. -/
theorem discover_streams_invalid_file_type_witness :
    (∃ msg, discover_streams "file" "xml" = .error (.valueError msg)) ∧
    (("xml" : String) = "tsv" →
      discover_streams "file" "xml" =
        .error (.valueError
          "tsv is not a valid \x27file_type\x27. Did you mean \x27delimited\x27?")) ∧
    (("xml" : String) ≠ "csv" → ("xml" : String) ≠ "tsv" →
      discover_streams "file" "xml" =
        .error (.valueError ("xml" ++ " is not a valid \x27file_type\x27."))) ∧
    (∃ p, getProperty "file_type" = some p ∧ p.allowed_values = Option.none) :=
  discover_streams_invalid_file_type "file" "xml"
    (by decide) (by decide) (by decide)

/-- C10: the configuration schema supplies the documented defaults for the
optional settings, and exactly `protocol` and `filepath` are required. -/
theorem config_jsonschema_defaults :
    (getProperty "stream_name").map (·.default) = some (.str "file") ∧
    (getProperty "file_type").map (·.default) = some (.str "delimited") ∧
    (getProperty "compression").map (·.default) = some (.str "detect") ∧
    (getProperty "delimiter").map (·.default) = some (.str "detect") ∧
    (getProperty "quote_character").map (·.default) = some (.str "\"") ∧
    (getProperty "jsonl_sampling_strategy").map (·.default) =
      some (.str "first") ∧
    (getProperty "jsonl_type_coercion_strategy").map (·.default) =
      some (.str "any") ∧
    (getProperty "caching_strategy").map (·.default) = some (.str "once") ∧
    (config_jsonschema.filter (·.required)).map (·.name) =
      ["protocol", "filepath"] := by
  decide

/-! The remaining definitions concern `tap_file/streams.py`, which is not
among the sources (only its callers and configuration declarations are);
they are modelled from the spec, as marked on each definition. -/

/-- `hasSuffix s t` is true when the string `s` ends with `t`. -/
def hasSuffix (s t : String) : Bool :=
  t.data.isSuffixOf s.data

/-- Two candidate extensions, neither a suffix of the other, cannot both be
suffixes of one filename. -/
theorem hasSuffix_false_of_hasSuffix {fn a b : String}
    (ha : hasSuffix fn a = true)
    (hab : a.data.isSuffixOf b.data = false)
    (hba : b.data.isSuffixOf a.data = false) :
    hasSuffix fn b = false := by
  by_contra hb
  rw [Bool.not_eq_false] at hb
  have ha' : List.IsSuffix a.data fn.data := List.isSuffixOf_iff_suffix.mp ha
  have hb' : List.IsSuffix b.data fn.data := List.isSuffixOf_iff_suffix.mp hb
  rcases List.suffix_or_suffix_of_suffix ha' hb' with h | h
  · rw [← List.isSuffixOf_iff_suffix, hab] at h
    exact Bool.false_ne_true h
  · rw [← List.isSuffixOf_iff_suffix, hba] at h
    exact Bool.false_ne_true h

/-- A compression codec selected for a file, or pass-through when the file
is treated as already decoded. -/
inductive Codec where
  | gzip
  | zip
  | bz2
  | xz
  | lzma
  | passThrough
deriving DecidableEq, Repr

/-- An error raised by the stream layer. -/
inductive StreamError where
  | unsupportedDelimiterError
  | ambiguousArchiveError
  | emptyArchiveError
  | notImplementedError (msg : String)
deriving DecidableEq, Repr

/-- Modelled from the spec: `tap_file/streams.py` (the compression
resolution of the file streams) is not among the sources.  Per the spec,
under the `detect` strategy the codec is selected from the filename
extension — `.gz` to gzip, `.zip` to zip, `.bz2` to bz2, `.xz` and `.lzma`
to their codecs — and a file with an unrecognized extension is treated as
already decoded (pass-through). -/
def detect_compression (filename : String) : Codec :=
  if hasSuffix filename ".gz" then .gzip
  else if hasSuffix filename ".zip" then .zip
  else if hasSuffix filename ".bz2" then .bz2
  else if hasSuffix filename ".xz" then .xz
  else if hasSuffix filename ".lzma" then .lzma
  else .passThrough

/-- C4: under `detect`, the extension-to-codec mapping is a total
deterministic function of the filename: `.gz` maps to gzip, `.zip` to zip,
`.bz2` to bz2, `.xz` and `.lzma` to their codecs, and every unrecognized
extension to pass-through. -/
theorem detect_compression_mapping (filename : String) :
    (hasSuffix filename ".gz" = true → detect_compression filename = .gzip) ∧
    (hasSuffix filename ".zip" = true → detect_compression filename = .zip) ∧
    (hasSuffix filename ".bz2" = true → detect_compression filename = .bz2) ∧
    (hasSuffix filename ".xz" = true → detect_compression filename = .xz) ∧
    (hasSuffix filename ".lzma" = true → detect_compression filename = .lzma) ∧
    (hasSuffix filename ".gz" = false → hasSuffix filename ".zip" = false →
      hasSuffix filename ".bz2" = false → hasSuffix filename ".xz" = false →
      hasSuffix filename ".lzma" = false →
      detect_compression filename = .passThrough) := by
  refine ⟨fun h => ?_, fun h => ?_, fun h => ?_, fun h => ?_, fun h => ?_,
    fun h1 h2 h3 h4 h5 => ?_⟩
  · simp [detect_compression, h]
  · have g1 : hasSuffix filename ".gz" = false :=
      hasSuffix_false_of_hasSuffix h (by decide) (by decide)
    simp [detect_compression, g1, h]
  · have g1 : hasSuffix filename ".gz" = false :=
      hasSuffix_false_of_hasSuffix h (by decide) (by decide)
    have g2 : hasSuffix filename ".zip" = false :=
      hasSuffix_false_of_hasSuffix h (by decide) (by decide)
    simp [detect_compression, g1, g2, h]
  · have g1 : hasSuffix filename ".gz" = false :=
      hasSuffix_false_of_hasSuffix h (by decide) (by decide)
    have g2 : hasSuffix filename ".zip" = false :=
      hasSuffix_false_of_hasSuffix h (by decide) (by decide)
    have g3 : hasSuffix filename ".bz2" = false :=
      hasSuffix_false_of_hasSuffix h (by decide) (by decide)
    simp [detect_compression, g1, g2, g3, h]
  · have g1 : hasSuffix filename ".gz" = false :=
      hasSuffix_false_of_hasSuffix h (by decide) (by decide)
    have g2 : hasSuffix filename ".zip" = false :=
      hasSuffix_false_of_hasSuffix h (by decide) (by decide)
    have g3 : hasSuffix filename ".bz2" = false :=
      hasSuffix_false_of_hasSuffix h (by decide) (by decide)
    have g4 : hasSuffix filename ".xz" = false :=
      hasSuffix_false_of_hasSuffix h (by decide) (by decide)
    simp [detect_compression, g1, g2, g3, g4, h]
  · simp [detect_compression, h1, h2, h3, h4, h5]

/-- C4 witness: the mapping at one concrete filename per extension. -/
theorem detect_compression_mapping_witness :
    detect_compression "a.gz" = .gzip ∧
    detect_compression "a.zip" = .zip ∧
    detect_compression "a.bz2" = .bz2 ∧
    detect_compression "a.xz" = .xz ∧
    detect_compression "a.lzma" = .lzma ∧
    detect_compression "a.txt" = .passThrough :=
  ⟨(detect_compression_mapping "a.gz").1 (by decide),
   (detect_compression_mapping "a.zip").2.1 (by decide),
   (detect_compression_mapping "a.bz2").2.2.1 (by decide),
   (detect_compression_mapping "a.xz").2.2.2.1 (by decide),
   (detect_compression_mapping "a.lzma").2.2.2.2.1 (by decide),
   (detect_compression_mapping "a.txt").2.2.2.2.2 (by decide) (by decide)
     (by decide) (by decide) (by decide)⟩

/-- Modelled from the spec: `tap_file/streams.py` (the delimiter resolution
of `DelimitedStream`) is not among the sources.  Per the spec, an explicitly
configured delimiter character is used for every matched file; the special
value `detect` splits `.csv` files on comma and `.tsv` files on tab, and
fails with `UnsupportedDelimiterError` for any other extension. -/
def resolve_delimiter (configured filename : String) :
    Except StreamError String :=
  if configured = "detect" then
    if hasSuffix filename ".csv" then .ok ","
    else if hasSuffix filename ".tsv" then .ok "\t"
    else .error .unsupportedDelimiterError
  else .ok configured

/-- C5: under `detect`, every `.csv` file resolves to comma and every
`.tsv` file to tab, any other extension fails with
`UnsupportedDelimiterError`, and an explicitly configured delimiter is used
for every matched file regardless of extension. -/
theorem resolve_delimiter_spec (configured filename : String) :
    (hasSuffix filename ".csv" = true →
      resolve_delimiter "detect" filename = .ok ",") ∧
    (hasSuffix filename ".tsv" = true →
      resolve_delimiter "detect" filename = .ok "\t") ∧
    (hasSuffix filename ".csv" = false → hasSuffix filename ".tsv" = false →
      resolve_delimiter "detect" filename =
        .error .unsupportedDelimiterError) ∧
    (configured ≠ "detect" →
      resolve_delimiter configured filename = .ok configured) := by
  refine ⟨fun h => ?_, fun h => ?_, fun h1 h2 => ?_, fun h => ?_⟩
  · simp [resolve_delimiter, h]
  · have g1 : hasSuffix filename ".csv" = false :=
      hasSuffix_false_of_hasSuffix h (by decide) (by decide)
    simp [resolve_delimiter, g1, h]
  · simp [resolve_delimiter, h1, h2]
  · simp [resolve_delimiter, h]

/-- C5 witness: detection on one filename per extension and an explicit
delimiter on a file with a foreign extension. -/
theorem resolve_delimiter_spec_witness :
    resolve_delimiter "detect" "a.csv" = .ok "," ∧
    resolve_delimiter "detect" "b.tsv" = .ok "\t" ∧
    resolve_delimiter "detect" "c.json" = .error .unsupportedDelimiterError ∧
    resolve_delimiter "|" "c.json" = .ok "|" :=
  ⟨(resolve_delimiter_spec "detect" "a.csv").1 (by decide),
   (resolve_delimiter_spec "detect" "b.tsv").2.1 (by decide),
   (resolve_delimiter_spec "detect" "c.json").2.2.1 (by decide) (by decide),
   (resolve_delimiter_spec "|" "c.json").2.2.2 (by decide)⟩

/-- Modelled from the spec: an entry handed to compression resolution —
either a regular (non-archive) file, or a zip archive with its list of
member entries (`tap_file/streams.py` is not among the sources). -/
inductive Entry where
  | regular (name : String)
  | zipArchive (name : String) (members : List Entry)

/-- Modelled from the spec: compression resolution over an entry.  A
regular file's codec comes from its filename extension; a zip archive with
exactly one member delegates recursively to that inner member (its name
then determines the inner file's own format/compression), and an archive
with more than one member fails with `AmbiguousArchiveError`. -/
def resolve_compression : Entry → Except StreamError Codec
  | .regular n => .ok (detect_compression n)
  | .zipArchive _ [] => .error .emptyArchiveError
  | .zipArchive _ [inner] => resolve_compression inner
  | .zipArchive _ (_ :: _ :: _) => .error .ambiguousArchiveError

/-- C6: a zip archive with more than one member always fails with
`AmbiguousArchiveError`, and a single-member archive delegates
format/compression detection recursively to the inner member, whose
filename decides its codec. -/
theorem resolve_compression_zip (name : String) (members : List Entry)
    (inner : Entry) (innerName : String) (h : 1 < members.length) :
    resolve_compression (.zipArchive name members) =
      .error .ambiguousArchiveError ∧
    resolve_compression (.zipArchive name [inner]) =
      resolve_compression inner ∧
    resolve_compression (.zipArchive name [.regular innerName]) =
      .ok (detect_compression innerName) := by
  refine ⟨?_, rfl, rfl⟩
  match members, h with
  | _ :: _ :: _, _ => rfl

/-- C6 witness: a two-member archive and a single-member archive holding a
gzip-named file. -/
theorem resolve_compression_zip_witness :
    resolve_compression (.zipArchive "a.zip"
        [.regular "x.csv", .regular "y.csv"]) =
      .error .ambiguousArchiveError ∧
    resolve_compression (.zipArchive "a.zip" [.regular "inner.gz"]) =
      resolve_compression (.regular "inner.gz") ∧
    resolve_compression (.zipArchive "a.zip" [.regular "inner.gz"]) =
      .ok (detect_compression "inner.gz") :=
  resolve_compression_zip "a.zip" [.regular "x.csv", .regular "y.csv"]
    (.regular "inner.gz") "inner.gz" (by decide)

/-- Modelled from the spec: the `StreamPipeline` orchestration
(`tap_file/streams.py` is not among the sources).  The pipeline lists the
entries, keeps those matching the configured path/regex, and concatenates
each matching entry's records in order; a failing entry aborts the
invocation. -/
def run_pipeline {α : Type} (entries : List String)
    (matched : String → Bool)
    (process : String → Except StreamError (List α)) :
    Except StreamError (List α) :=
  (entries.filter matched).foldlM
    (fun acc e => (process e).map (fun rs => acc ++ rs)) []

/-- C7: when zero files match the configured path and regex, the pipeline
completes successfully with an empty record sequence instead of raising an
error. -/
theorem run_pipeline_no_match {α : Type} (entries : List String)
    (matched : String → Bool)
    (process : String → Except StreamError (List α))
    (h : ∀ e ∈ entries, matched e = false) :
    run_pipeline entries matched process = .ok [] := by
  have hfil : entries.filter matched = [] := by
    rw [List.filter_eq_nil_iff]
    intro a ha
    simp [h a ha]
  rw [run_pipeline, hfil]
  rfl

/-- C7 witness: two entries, a regex matching neither, and a processor that
would fail on any file it were given. -/
theorem run_pipeline_no_match_witness :
    run_pipeline ["a.txt", "b.txt"] (fun e => hasSuffix e ".csv")
      (fun _ => (.error .unsupportedDelimiterError : Except StreamError (List Nat))) =
      .ok [] :=
  run_pipeline_no_match ["a.txt", "b.txt"] (fun e => hasSuffix e ".csv")
    (fun _ => .error .unsupportedDelimiterError) (by decide)

/-- The JSON-schema type a JSONL field is given under a type-coercion
strategy: `any` (any valid JSON type) or `string`. -/
inductive JsonType where
  | any
  | string
deriving DecidableEq, Repr

/-- Modelled from the spec: the JSONL format strategy's schema inference
and record delivery (`tap_file/streams.py` is not among the sources).
Records are abstracted to their key lists.  Selecting the `all` sampling
strategy or the `blob` coercion strategy fails fast with a
`NotImplementedError`-class signal, before any record is inspected;
otherwise, under `first`, the first record's keys form the schema — typed
`string` under the `string` coercion strategy and `any` under `any` — and
the records are delivered unchanged. -/
def jsonl_schema_and_records (sampling coercion : String)
    (records : List (List String)) :
    Except StreamError (List (String × JsonType) × List (List String)) :=
  if sampling = "all" then
    .error (.notImplementedError
      "the all sampling strategy has not yet been implemented.")
  else if coercion = "blob" then
    .error (.notImplementedError
      "the blob coercion strategy has not yet been implemented.")
  else
    .ok ((records.headD []).map
      (fun k => (k, if coercion = "string" then JsonType.string else JsonType.any)),
      records)

/-- C8: selecting the JSONL sampling strategy `all` or the type-coercion
strategy `blob` fails fast with a `NotImplementedError`-class signal —
whatever the records are, so before any file is read — and never produces
a schema or records. -/
theorem jsonl_unimplemented_strategies (sampling coercion : String)
    (records : List (List String))
    (h : sampling = "all" ∨ coercion = "blob") :
    ∃ msg, jsonl_schema_and_records sampling coercion records =
      .error (.notImplementedError msg) := by
  by_cases hs : sampling = "all"
  · refine ⟨"the all sampling strategy has not yet been implemented.", ?_⟩
    simp [jsonl_schema_and_records, hs]
  · rcases h with h | h
    · exact absurd h hs
    · refine ⟨"the blob coercion strategy has not yet been implemented.", ?_⟩
      simp [jsonl_schema_and_records, hs, h]

/-- C8 witness: the `all` sampling strategy and the `blob` coercion
strategy on a concrete record list. -/
theorem jsonl_unimplemented_strategies_witness :
    (∃ msg, jsonl_schema_and_records "all" "any" [["a"], ["b"]] =
      .error (.notImplementedError msg)) ∧
    (∃ msg, jsonl_schema_and_records "first" "blob" [["a"], ["b"]] =
      .error (.notImplementedError msg)) :=
  ⟨jsonl_unimplemented_strategies "all" "any" [["a"], ["b"]] (Or.inl rfl),
   jsonl_unimplemented_strategies "first" "blob" [["a"], ["b"]] (Or.inr rfl)⟩
